import Mathlib

/-! Formal model of the LocalLink reverse tunnel. The edge tunnel manager
(server/tunnel.js), the client dispatcher and reconnect controller
(client/lib/tunnel.js, client/lib/reconnect.js) and the client
configuration store (config.js) are embedded shallowly as pure functions
over explicit state; event handlers become functions from state and one
incoming message to the new state plus the list of externally visible
actions they perform. -/

/-- Headers are an association list of name-value pairs, mirroring a
JavaScript object of string-valued fields (key order preserved, keys
unique). -/
abbrev Headers := List (String × String)

/-- Value of one character of the standard base64 alphabet. -/
def b64CharVal (c : Char) : Option Nat :=
  if 'A' ≤ c ∧ c ≤ 'Z' then some (c.toNat - 'A'.toNat)
  else if 'a' ≤ c ∧ c ≤ 'z' then some (c.toNat - 'a'.toNat + 26)
  else if '0' ≤ c ∧ c ≤ '9' then some (c.toNat - '0'.toNat + 52)
  else if c = '+' then some 62
  else if c = '/' then some 63
  else none

/-- Regroup a run of 6-bit base64 values into 8-bit bytes. -/
def b64Bytes : List Nat → List Nat
  | a :: b :: c :: d :: rest =>
      (a * 4 + b / 16) :: ((b % 16) * 16 + c / 4) :: ((c % 4) * 64 + d) :: b64Bytes rest
  | [a, b] => [a * 4 + b / 16]
  | [a, b, c] => [a * 4 + b / 16, (b % 16) * 16 + c / 4]
  | _ => []

/-- Decode a base64 string to a byte list, as Buffer.from(s, "base64"). -/
def base64Decode (s : String) : List Nat :=
  b64Bytes ((s.data.filter (fun c => c ≠ '=')).filterMap b64CharVal)

/-- Model of the JavaScript s.startsWith(p) builtin over the character
list of the string. -/
def strStartsWith (s p : String) : Bool := p.data.isPrefixOf s.data

/-- Model of the JavaScript s.endsWith(p) builtin. -/
def strEndsWith (s p : String) : Bool := p.data.isSuffixOf s.data

/-- Drop the last n characters of a string. -/
def strDropRight (s : String) (n : Nat) : String :=
  String.mk (s.data.take (s.data.length - n))

/-- Model of the JavaScript s.trim() builtin: remove surrounding
whitespace. -/
def strTrim (s : String) : String :=
  String.mk (((s.data.dropWhile Char.isWhitespace).reverse.dropWhile Char.isWhitespace).reverse)

/-- Model of the JavaScript s.toLowerCase() builtin (ASCII range). -/
def toLowerStr (s : String) : String := String.mk (s.data.map Char.toLower)

/-- One JSON message on the control channel. A field that is absent from
the underlying JSON object is `none`. -/
structure Msg where
  type : String
  id : Option String := none
  method : Option String := none
  url : Option String := none
  headers : Option Headers := none
  hasBody : Option Bool := none
  data : Option String := none
  direction : Option String := none
  status : Option Nat := none
  body : Option String := none
  streaming : Option Bool := none
  port : Option Nat := none
  deriving Repr, DecidableEq

/-- Lookup in a JavaScript Map modelled as an association list. -/
def mapGet {α : Type} (k : String) : List (String × α) → Option α
  | [] => none
  | (k2, v) :: rest => if k2 = k then some v else mapGet k rest

/-- JavaScript Map.set: replace the binding when present, else append. -/
def mapSet {α : Type} (k : String) (v : α) : List (String × α) → List (String × α)
  | [] => [(k, v)]
  | (k2, v2) :: rest => if k2 = k then (k, v) :: rest else (k2, v2) :: mapSet k v rest

/-- JavaScript Map.delete: drop the binding for the key (keys are unique
in a Map, so dropping every binding with that key is equivalent). -/
def mapDel {α : Type} (k : String) (m : List (String × α)) : List (String × α) :=
  m.filter (fun kv => kv.1 != k)

/-- JavaScript `v || dflt` for an optional numeric field: an absent or
zero value falls back to the default. -/
def jsOrNat (v : Option Nat) (dflt : Nat) : Nat :=
  match v with
  | some p => if p = 0 then dflt else p
  | none => dflt

/-- JavaScript truthiness of an optional string: present and nonempty. -/
def jsTruthy (v : Option String) : Bool :=
  match v with
  | some s => s != ""
  | none => false

/-- The active tunnel record built by registerTunnel (server/tunnel.js
lines 23-27): the fields ws, port and registeredAt, with the ws handle
modelled as a connection id plus its readyState. -/
structure Tunnel where
  ws : Nat
  wsReadyState : Nat
  port : Nat
  registeredAt : Nat
  deriving Repr, DecidableEq

/-- Per-request record stored in pendingRequests (responseStarted), plus
the observable headersSent flag of the associated Express response. -/
structure Pending where
  responseStarted : Bool
  headersSent : Bool
  deriving Repr, DecidableEq

/-- State of the edge TunnelManager: the activeTunnel slot and the
in-flight pendingRequests table. -/
structure TunnelManager where
  activeTunnel : Option Tunnel
  pendingRequests : List (String × Pending)
  deriving Repr, DecidableEq

/-- Actions performed on a public HTTP response object: setHeader,
status, a JSON error body, a raw body write, and end. -/
inductive RAction where
  | setHeader (k v : String)
  | status (code : Nat)
  | json (fields : List (String × String))
  | write (bytes : List Nat)
  | endRes
  deriving Repr, DecidableEq

/-- registerTunnel (server/tunnel.js lines 17-49). When a tunnel is
already active the source first runs `this.activeTunnel.close()`;
activeTunnel is the plain record above, which defines no close method,
so that statement throws a TypeError before any state is changed. The
thrown exception is modelled as `Except.error`; on the free slot the new
tunnel record is installed with readyState OPEN and returned. -/
def registerTunnel (now : Nat) (st : TunnelManager) (ws : Nat)
    (regPort : Option Nat) : Except String (TunnelManager × Tunnel) :=
  match st.activeTunnel with
  | some _ => Except.error "TypeError: this.activeTunnel.close is not a function"
  | none =>
      let t : Tunnel :=
        { ws := ws, wsReadyState := 1, port := jsOrNat regPort 3000, registeredAt := now }
      Except.ok ({ st with activeTunnel := some t }, t)

/-- isActive (server/tunnel.js lines 54-57): a tunnel is present and its
ws readyState equals OPEN. -/
def isActive (st : TunnelManager) : Bool :=
  match st.activeTunnel with
  | some t => t.wsReadyState == 1
  | none => false

/-- Body of the ws close handler installed by registerTunnel
(server/tunnel.js lines 30-42): when the closing socket is the active
one, the registration is dropped, every pending request is answered with
status 503 and the Tunnel disconnected JSON body, and the table is
cleared. The source does not consult responseStarted here. -/
def onWsClose (st : TunnelManager) (ws : Nat) :
    TunnelManager × List (String × List RAction) :=
  match st.activeTunnel with
  | some t =>
      if t.ws == ws then
        ({ activeTunnel := none, pendingRequests := [] },
         st.pendingRequests.map (fun kv =>
           (kv.1, [RAction.status 503,
                   RAction.json [("error", "Tunnel disconnected"),
                                 ("message", "The tunnel connection has been lost")]])))
      else (st, [])
  | none => (st, [])

/-- The eight hop-by-hop header names (server/tunnel.js lines 274-283). -/
def hopByHop : List String :=
  ["connection", "keep-alive", "proxy-authenticate", "proxy-authorization",
   "te", "trailers", "transfer-encoding", "upgrade"]

/-- sanitizeHeaders (server/tunnel.js lines 273-293): keep, in order,
exactly the pairs whose lowercased key is not hop-by-hop. -/
def sanitizeHeaders (headers : Headers) : Headers :=
  headers.filter (fun kv => !(hopByHop.contains (toLowerStr kv.1)))

/-- Values of a JSON status record. -/
inductive JsVal where
  | null
  | bool (b : Bool)
  | num (n : Nat)
  | str (s : String)
  deriving Repr, DecidableEq

/-- getStatus (server/tunnel.js lines 298-312). The field names follow
the source: the uptime key is spelled "uptime" and holds the elapsed
milliseconds since registeredAt. -/
def getStatus (now : Nat) (st : TunnelManager) : List (String × JsVal) :=
  match st.activeTunnel with
  | none =>
      [("connected", JsVal.bool false), ("port", JsVal.null), ("uptime", JsVal.null)]
  | some t =>
      [("connected", JsVal.bool (isActive st)),
       ("port", JsVal.num t.port),
       ("uptime", JsVal.num (now - t.registeredAt))]

/-- The per-request message handler installed by forwardRequest
(server/tunnel.js lines 91-174), applied to one incoming control-channel
message; `parsed = none` models a message whose JSON parsing throws (the
catch block). Returns the updated manager state and the actions
performed on this request's public response. -/
def responseHandler (st : TunnelManager) (requestId : String)
    (parsed : Option Msg) : TunnelManager × List RAction :=
  match parsed with
  | none =>
      match mapGet requestId st.pendingRequests with
      | none => (st, [])
      | some p =>
          let acts :=
            if !p.responseStarted then
              [RAction.status 500, RAction.json [("error", "Invalid response from tunnel")]]
            else [RAction.endRes]
          ({ st with pendingRequests := mapDel requestId st.pendingRequests }, acts)
  | some m =>
      if m.id ≠ some requestId then (st, [])
      else
        match mapGet requestId st.pendingRequests with
        | none => (st, [])
        | some p =>
          if m.type = "response" then
            let headerActs := (m.headers.getD []).map (fun kv => RAction.setHeader kv.1 kv.2)
            let statusAct := RAction.status (jsOrNat m.status 200)
            let bodyActs :=
              match m.body with
              | some b => [RAction.write (base64Decode b)]
              | none => []
            if (m.streaming.getD false) = false then
              ({ st with pendingRequests := mapDel requestId st.pendingRequests },
               headerActs ++ [statusAct] ++ bodyActs ++ [RAction.endRes])
            else
              let p2 : Pending := { responseStarted := true, headersSent := m.body.isSome }
              ({ st with pendingRequests := mapSet requestId p2 st.pendingRequests },
               headerActs ++ [statusAct] ++ bodyActs)
          else if m.type = "chunk" then
            let fresh := !p.responseStarted && !p.headersSent
            let p1 := if fresh then { p with responseStarted := true } else p
            let acts1 := if fresh then [RAction.status 200] else []
            if !p.headersSent || p1.responseStarted then
              let p2 : Pending := { p1 with headersSent := true }
              ({ st with pendingRequests := mapSet requestId p2 st.pendingRequests },
               acts1 ++ [RAction.write (base64Decode (m.data.getD ""))])
            else
              ({ st with pendingRequests := mapSet requestId p1 st.pendingRequests }, acts1)
          else if m.type = "end" then
            let acts1 :=
              if !p.responseStarted && !p.headersSent then [RAction.status 200] else []
            let acts2 :=
              if !p.headersSent || p.responseStarted then acts1 ++ [RAction.endRes] else acts1
            ({ st with pendingRequests := mapDel requestId st.pendingRequests }, acts2)
          else (st, [])

/-- Timeout constant: forwardRequest arms a 30000 ms timer per request
(server/tunnel.js line 267). -/
def requestTimeoutMs : Nat := 30000

/-- Body of the per-request timeout callback (server/tunnel.js lines
251-267): when the record is still present, answer 504 with the Request
timeout JSON body if no response has started, otherwise just end the
response; in both cases delete the record. -/
def timeoutFire (st : TunnelManager) (requestId : String) :
    TunnelManager × List RAction :=
  match mapGet requestId st.pendingRequests with
  | none => (st, [])
  | some p =>
      let acts :=
        if !p.responseStarted then
          [RAction.status 504,
           RAction.json [("error", "Request timeout"),
                         ("message", "The tunnel client did not respond in time")]]
        else [RAction.endRes]
      ({ st with pendingRequests := mapDel requestId st.pendingRequests }, acts)

/-- The chunk frame built by the request-body data pump in
forwardRequest (server/tunnel.js lines 204-208): fields type, id and
data only — no direction field is set. -/
def requestBodyChunkFrame (requestId : String) (dataB64 : String) : Msg :=
  { type := "chunk", id := some requestId, data := some dataB64 }

/-- The end frame built on end-of-body in forwardRequest
(server/tunnel.js lines 220-224): it does carry direction = "request". -/
def requestBodyEndFrame (requestId : String) : Msg :=
  { type := "end", id := some requestId, direction := some "request" }

/-- Client-side pending record { req, chunks } (client/lib/tunnel.js
line 216); the local request handle itself is addressed through the
LAction trace instead of being stored. -/
structure ClientPending where
  chunks : List String
  deriving Repr, DecidableEq

/-- Actions performed on the outbound loopback HTTP request. -/
inductive LAction where
  | write (bytes : List Nat)
  | endReq
  deriving Repr, DecidableEq

/-- The client pendingRequests table. -/
abbrev ClientState := List (String × ClientPending)

/-- forwardToLocal (client/lib/tunnel.js lines 147-229), synchronous
part: register the pending record, then for a truthy inline body write
its decoded bytes and end the local request, deleting the entry; with no
body and hasBody falsy, end immediately and delete the entry; otherwise
(hasBody true, no inline body) leave the entry awaiting chunks. -/
def forwardToLocal (st : ClientState) (m : Msg) : ClientState × List LAction :=
  let id := m.id.getD ""
  let st1 := mapSet id { chunks := [] } st
  if jsTruthy m.body then
    (mapDel id st1, [LAction.write (base64Decode (m.body.getD "")), LAction.endReq])
  else if !(m.hasBody.getD false) then
    (mapDel id st1, [LAction.endReq])
  else (st1, [])

/-- handleRequestChunk (client/lib/tunnel.js lines 231-242): write the
decoded chunk to the pending local request, or silently drop the frame
when no entry exists. -/
def handleRequestChunk (st : ClientState) (m : Msg) : ClientState × List LAction :=
  match mapGet (m.id.getD "") st with
  | none => (st, [])
  | some _ => (st, [LAction.write (base64Decode (m.data.getD ""))])

/-- handleRequestEnd (client/lib/tunnel.js lines 244-255): end the
pending local request and delete the entry, or silently drop the frame
when no entry exists. -/
def handleRequestEnd (st : ClientState) (m : Msg) : ClientState × List LAction :=
  match mapGet (m.id.getD "") st with
  | none => (st, [])
  | some _ => (mapDel (m.id.getD "") st, [LAction.endReq])

/-- The client ws message dispatcher (client/lib/tunnel.js lines
92-114). Request frames go to forwardToLocal; chunk and end frames are
handled only when their direction field equals "request"; everything
else (registered, error, unmatched) performs no local-request action. -/
def clientDispatch (st : ClientState) (m : Msg) : ClientState × List LAction :=
  if m.type = "registered" then (st, [])
  else if m.type = "request" then forwardToLocal st m
  else if m.type = "chunk" ∧ m.direction = some "request" then handleRequestChunk st m
  else if m.type = "end" ∧ m.direction = some "request" then handleRequestEnd st m
  else (st, [])

/-- ReconnectManager state (client/lib/reconnect.js lines 262-271).
maxAttempts none models the default Infinity; delays are rationals in
milliseconds (baseDelay 1000, maxDelay 60000 by default). -/
structure ReconnectManager where
  attempts : Nat
  maxAttempts : Option Nat
  baseDelay : ℚ
  maxDelay : ℚ
  isReconnecting : Bool
  deriving Repr, DecidableEq

/-- getDelay (client/lib/reconnect.js lines 276-284): the capped
exponential delay baseDelay * 2 ^ attempts from the current attempts
counter, plus jitter rand * 0.3 * delay for the drawn rand ∈ [0,1),
floored to an integer. -/
def getDelay (rm : ReconnectManager) (rand : ℚ) : ℤ :=
  let delay := min (rm.baseDelay * 2 ^ rm.attempts) rm.maxDelay
  let jitter := rand * (3 / 10) * delay
  (delay + jitter).floor

/-- Outcome of one reconnect invocation. -/
inductive ReconnectOutcome where
  | noop
  | giveUp
  | scheduled (rm : ReconnectManager) (delay : ℤ)
  deriving Repr, DecidableEq

/-- reconnect (client/lib/reconnect.js lines 289-328), up to the point
where the timer is armed: a no-op while already reconnecting; otherwise
the attempts counter is incremented first, the call gives up past
maxAttempts, and the delay is computed by getDelay with the already
incremented counter. -/
def reconnectStep (rm : ReconnectManager) (rand : ℚ) : ReconnectOutcome :=
  if rm.isReconnecting then ReconnectOutcome.noop
  else
    let rm1 := { rm with attempts := rm.attempts + 1, isReconnecting := true }
    match rm.maxAttempts with
    | some mx =>
        if rm1.attempts > mx then ReconnectOutcome.giveUp
        else ReconnectOutcome.scheduled rm1 (getDelay rm1 rand)
    | none => ReconnectOutcome.scheduled rm1 (getDelay rm1 rand)

/-- Persisted client configuration (config.js): the config.json record
{domain, createdAt, updatedAt} with ISO-8601 timestamp strings. -/
structure Config where
  domain : String
  createdAt : String
  updatedAt : String
  deriving Repr, DecidableEq

/-- Domain normalization in initConfig (config.js line 24): trim
surrounding whitespace, then drop one trailing slash. -/
def normalizeDomain (s : String) : String :=
  let t := strTrim s
  if strEndsWith t "/" then strDropRight t 1 else t

/-- initConfig (config.js lines 17-59). urlOk models the Node URL
constructor succeeding on its argument; fileState is the parsed content
of config.json, none when the file is absent or unparseable. The empty
string is rejected up front; the normalized domain must then begin with
http:// or https:// and parse as a URL; createdAt is preserved from a
truthy existing value, else taken fresh. -/
def initConfig (urlOk : String → Bool) (now : String)
    (fileState : Option Config) (domain : String) : Except String Config :=
  if domain = "" then Except.error "Domain is required"
  else
    let d := normalizeDomain domain
    if !(strStartsWith d "http://") && !(strStartsWith d "https://") then
      Except.error "Domain must start with http:// or https://"
    else if !(urlOk d) then Except.error "Invalid domain URL format"
    else
      Except.ok
        { domain := d,
          createdAt :=
            match fileState with
            | some c => if c.createdAt = "" then now else c.createdAt
            | none => now,
          updatedAt := now }

/-- getConfig (config.js lines 65-82): the parsed file when present and
carrying a truthy domain, else none. -/
def getConfig (fileState : Option Config) : Option Config :=
  match fileState with
  | none => none
  | some c => if c.domain = "" then none else some c

/-- Helper: deleting a key makes it unfindable. -/
theorem mapGet_mapDel {α : Type} (k : String) (m : List (String × α)) :
    mapGet k (mapDel k m) = none := by
  induction m with
  | nil => rfl
  | cons kv rest ih =>
      by_cases h : kv.1 = k
      · simpa [mapDel, List.filter_cons, h] using ih
      · simpa [mapDel, List.filter_cons, h, mapGet] using ih

/-- Helper: setting a key makes it findable with the new value. -/
theorem mapGet_mapSet {α : Type} (k : String) (v : α) (m : List (String × α)) :
    mapGet k (mapSet k v m) = some v := by
  induction m with
  | nil => simp [mapSet, mapGet]
  | cons kv rest ih =>
      by_cases h : kv.1 = k
      · simp [mapSet, h, mapGet]
      · simp [mapSet, h, mapGet, ih]

/-- C1: the request-body chunk frames built by the edge carry no
direction field, while the client dispatcher handles a chunk frame only
when its direction equals "request": every request-body fragment
forwarded on the open channel is therefore dropped by the client (state
unchanged, no write to the pending local request), even though the
matching end frame does carry direction = "request". -/
theorem requestBody_chunks_dropped (requestId dataB64 : String) (st : ClientState) :
    (requestBodyChunkFrame requestId dataB64).direction = none ∧
    clientDispatch st (requestBodyChunkFrame requestId dataB64) = (st, []) ∧
    (requestBodyEndFrame requestId).direction = some "request" := by
  refine ⟨rfl, ?_, rfl⟩
  simp [clientDispatch, requestBodyChunkFrame]

/-- C2: with a tunnel registered and a request in flight, a second
registration does not install a new tunnel: registerTunnel evaluates
this.activeTunnel.close(), which is not a function on the tunnel record,
so it throws before closing the old channel or failing any pending
request. -/
theorem second_register_throws :
    registerTunnel 5000
      { activeTunnel := some { ws := 1, wsReadyState := 1, port := 3000, registeredAt := 0 },
        pendingRequests := [("req_a", { responseStarted := false, headersSent := false })] }
      2 (some 4000)
      = Except.error "TypeError: this.activeTunnel.close is not a function" := rfl

/-- C3 counterexample: starting from the quiescent controller (attempts
= 0), the first reconnect attempt with zero jitter is scheduled after
2000 ms, not after the claimed min(1000 * 2 ^ (1 - 1), 60000) = 1000 ms,
because reconnect increments the attempts counter before getDelay reads
it. -/
theorem first_attempt_delay_not_base :
    reconnectStep { attempts := 0, maxAttempts := none, baseDelay := 1000,
                    maxDelay := 60000, isReconnecting := false } 0
      = ReconnectOutcome.scheduled
          { attempts := 1, maxAttempts := none, baseDelay := 1000,
            maxDelay := 60000, isReconnecting := true } 2000 ∧
    (2000 : ℤ) ≠ 1000 * 2 ^ (1 - 1) + 0 := by
  refine ⟨?_, by decide⟩
  have hd : getDelay { attempts := 1, maxAttempts := none, baseDelay := 1000,
                       maxDelay := 60000, isReconnecting := true } 0 = 2000 := by
    show ((min ((1000 : ℚ) * 2 ^ 1) 60000
           + 0 * (3 / 10) * min ((1000 : ℚ) * 2 ^ 1) 60000) : ℚ).floor = 2000
    have h1 : min ((1000 : ℚ) * 2 ^ 1) 60000 = 2000 := by
      rw [min_eq_left (by norm_num : (1000 : ℚ) * 2 ^ 1 ≤ 60000)]
      norm_num
    rw [h1]
    have h2 : (2000 : ℚ) + 0 * (3 / 10) * 2000 = 2000 := by norm_num
    rw [h2]
    show ⌊(2000 : ℚ)⌋ = 2000
    norm_num
  rw [show reconnectStep { attempts := 0, maxAttempts := none, baseDelay := 1000,
                           maxDelay := 60000, isReconnecting := false } (0 : ℚ)
      = ReconnectOutcome.scheduled
          { attempts := 1, maxAttempts := none, baseDelay := 1000,
            maxDelay := 60000, isReconnecting := true }
          (getDelay { attempts := 1, maxAttempts := none, baseDelay := 1000,
                      maxDelay := 60000, isReconnecting := true } 0) from rfl, hd]

/-- C3 amended: for consecutive attempt n (1-indexed, counter reset on a
successful open), the controller schedules the retry after
floor(D + r * 0.3 * D) milliseconds where D = min(1000 * 2 ^ n, 60000)
and r is the jitter draw: the exponent is n rather than n - 1, so the
first three base delays are 2 s, 4 s and 8 s. -/
theorem reconnect_delay_formula (n : Nat) (r : ℚ) (hn : 1 ≤ n) :
    reconnectStep { attempts := n - 1, maxAttempts := none, baseDelay := 1000,
                    maxDelay := 60000, isReconnecting := false } r
      = ReconnectOutcome.scheduled
          { attempts := n, maxAttempts := none, baseDelay := 1000,
            maxDelay := 60000, isReconnecting := true }
          ((min ((1000 : ℚ) * 2 ^ n) 60000
            + r * (3 / 10) * min ((1000 : ℚ) * 2 ^ n) 60000).floor) := by
  have h : n - 1 + 1 = n := Nat.succ_pred_eq_of_pos hn
  simp [reconnectStep, getDelay, h]

/-- Witness for the amended C3 at n = 1 with zero jitter. -/
theorem reconnect_delay_formula_witness :
    reconnectStep { attempts := 0, maxAttempts := none, baseDelay := 1000,
                    maxDelay := 60000, isReconnecting := false } 0
      = ReconnectOutcome.scheduled
          { attempts := 1, maxAttempts := none, baseDelay := 1000,
            maxDelay := 60000, isReconnecting := true }
          ((min ((1000 : ℚ) * 2 ^ 1) 60000
            + 0 * (3 / 10) * min ((1000 : ℚ) * 2 ^ 1) 60000).floor) :=
  reconnect_delay_formula 1 0 (by decide)

/-- C4: sanitizeHeaders removes exactly the hop-by-hop set,
case-insensitively: no surviving key lowercases into the eight
hop-by-hop names, every other input pair survives unchanged, and nothing
not present in the input appears in the result. -/
theorem sanitizeHeaders_spec (headers : Headers) :
    (∀ kv ∈ sanitizeHeaders headers, hopByHop.contains (toLowerStr kv.1) = false) ∧
    (∀ kv ∈ headers, hopByHop.contains (toLowerStr kv.1) = false → kv ∈ sanitizeHeaders headers) ∧
    (∀ kv ∈ sanitizeHeaders headers, kv ∈ headers) := by
  refine ⟨fun kv h => ?_, fun kv h hc => ?_, fun kv h => ?_⟩
  · have := (List.mem_filter.1 h).2
    simpa using this
  · exact List.mem_filter.2 ⟨h, by simpa using hc⟩
  · exact (List.mem_filter.1 h).1

/-- Witness for C4 on a concrete header map. -/
theorem sanitizeHeaders_spec_witness :
    ("Host", "example.com") ∈ sanitizeHeaders [("Connection", "close"), ("Host", "example.com")] :=
  (sanitizeHeaders_spec [("Connection", "close"), ("Host", "example.com")]).2.1
    ("Host", "example.com") (by decide) (by decide)

/-- C5: the 30-second timer, firing while the record is still present,
answers 504 with the Request timeout JSON body when no response has
started and otherwise just ends the response; the record is deleted, and
a second firing finds nothing and does nothing. -/
theorem timeout_behavior (st : TunnelManager) (requestId : String) (p : Pending)
    (h : mapGet requestId st.pendingRequests = some p) :
    requestTimeoutMs = 30000 ∧
    timeoutFire st requestId
      = ({ st with pendingRequests := mapDel requestId st.pendingRequests },
         if !p.responseStarted then
           [RAction.status 504,
            RAction.json [("error", "Request timeout"),
                          ("message", "The tunnel client did not respond in time")]]
         else [RAction.endRes]) ∧
    mapGet requestId (timeoutFire st requestId).1.pendingRequests = none ∧
    timeoutFire (timeoutFire st requestId).1 requestId = ((timeoutFire st requestId).1, []) := by
  refine ⟨rfl, ?_, ?_, ?_⟩
  · simp [timeoutFire, h]
  · simp [timeoutFire, h, mapGet_mapDel]
  · simp [timeoutFire, h, mapGet_mapDel]

/-- Witness for C5 on a concrete in-flight table. -/
theorem timeout_behavior_witness :
    timeoutFire { activeTunnel := none,
                  pendingRequests := [("r", { responseStarted := false, headersSent := false })] } "r"
      = ({ activeTunnel := none, pendingRequests := [] },
         [RAction.status 504,
          RAction.json [("error", "Request timeout"),
                        ("message", "The tunnel client did not respond in time")]]) :=
  ((timeout_behavior
      { activeTunnel := none,
        pendingRequests := [("r", { responseStarted := false, headersSent := false })] }
      "r" { responseStarted := false, headersSent := false } rfl).2.1).trans (by decide)

/-- C6 counterexample: a pending request whose response has already
started still receives a status 503 write with the Tunnel disconnected
JSON body when the active channel closes, refuting the claim that such a
response is merely closed without a new status. -/
theorem close_writes_503_after_start :
    onWsClose { activeTunnel := some { ws := 1, wsReadyState := 1, port := 3000, registeredAt := 0 },
                pendingRequests := [("req_b", { responseStarted := true, headersSent := true })] } 1
      = ({ activeTunnel := none, pendingRequests := [] },
         [("req_b", [RAction.status 503,
                     RAction.json [("error", "Tunnel disconnected"),
                                   ("message", "The tunnel connection has been lost")]])]) ∧
    RAction.status 503 ∈
      (mapGet "req_b"
        (onWsClose { activeTunnel := some { ws := 1, wsReadyState := 1, port := 3000, registeredAt := 0 },
                     pendingRequests := [("req_b", { responseStarted := true, headersSent := true })] } 1).2).getD []
    := by
  refine ⟨rfl, by decide⟩

/-- C6 amended: when the active channel closes, every outstanding
request record — whether or not its response has started — is answered
with status 503 and the Tunnel disconnected JSON body; the registration
is dropped and the in-flight table is emptied. -/
theorem close_fails_all_pending (st : TunnelManager) (t : Tunnel) (ws : Nat)
    (ht : st.activeTunnel = some t) (hw : t.ws = ws) :
    onWsClose st ws
      = ({ activeTunnel := none, pendingRequests := [] },
         st.pendingRequests.map (fun kv =>
           (kv.1, [RAction.status 503,
                   RAction.json [("error", "Tunnel disconnected"),
                                 ("message", "The tunnel connection has been lost")]]))) := by
  simp [onWsClose, ht, hw]

/-- Witness for the amended C6 on a concrete two-request table. -/
theorem close_fails_all_pending_witness :
    onWsClose { activeTunnel := some { ws := 7, wsReadyState := 1, port := 3000, registeredAt := 0 },
                pendingRequests := [("a", { responseStarted := true, headersSent := true }),
                                    ("b", { responseStarted := false, headersSent := false })] } 7
      = ({ activeTunnel := none, pendingRequests := [] },
         [("a", [RAction.status 503,
                 RAction.json [("error", "Tunnel disconnected"),
                               ("message", "The tunnel connection has been lost")]]),
          ("b", [RAction.status 503,
                 RAction.json [("error", "Tunnel disconnected"),
                               ("message", "The tunnel connection has been lost")]])]) :=
  (close_fails_all_pending _ _ 7 rfl rfl).trans (by decide)

/-- C7: a chunk frame arriving for a record that is still awaiting its
response head makes the edge emit an implicit 200 status, write the
decoded chunk bytes, and keep the record — now marked started — in the
in-flight table. -/
theorem chunk_first_implicit_200 (st : TunnelManager) (requestId dataB64 : String) (p : Pending)
    (hp : mapGet requestId st.pendingRequests = some p)
    (h1 : p.responseStarted = false) (h2 : p.headersSent = false) :
    responseHandler st requestId
        (some { type := "chunk", id := some requestId, data := some dataB64 })
      = ({ st with pendingRequests := mapSet requestId (⟨true, true⟩ : Pending) st.pendingRequests },
         [RAction.status 200, RAction.write (base64Decode dataB64)]) ∧
    mapGet requestId
        (responseHandler st requestId
          (some { type := "chunk", id := some requestId, data := some dataB64 })).1.pendingRequests
      = some (⟨true, true⟩ : Pending) := by
  have hp2 : p = (⟨false, false⟩ : Pending) := by
    cases p
    simp_all
  rw [hp2] at hp
  have key : responseHandler st requestId
      (some { type := "chunk", id := some requestId, data := some dataB64 })
      = ({ st with pendingRequests := mapSet requestId (⟨true, true⟩ : Pending) st.pendingRequests },
         [RAction.status 200, RAction.write (base64Decode dataB64)]) := by
    simp [responseHandler, hp]
  refine ⟨key, ?_⟩
  rw [key]
  exact mapGet_mapSet requestId _ st.pendingRequests

/-- Witness for C7 on a concrete awaiting record. -/
theorem chunk_first_implicit_200_witness :
    responseHandler { activeTunnel := none,
                      pendingRequests := [("r", { responseStarted := false, headersSent := false })] } "r"
        (some { type := "chunk", id := some "r", data := some "aGk=" })
      = ({ activeTunnel := none,
           pendingRequests := [("r", { responseStarted := true, headersSent := true })] },
         [RAction.status 200, RAction.write [104, 105]]) :=
  ((chunk_first_implicit_200
      { activeTunnel := none,
        pendingRequests := [("r", { responseStarted := false, headersSent := false })] }
      "r" "aGk=" { responseStarted := false, headersSent := false }
      rfl rfl rfl).1).trans (by decide)

/-- C8 counterexample: the status record returned at a registered state
has no uptime_ms field; its elapsed-time field is keyed "uptime". -/
theorem status_uptime_key_name :
    mapGet "uptime_ms"
        (getStatus 5000 { activeTunnel := some { ws := 1, wsReadyState := 1, port := 3000, registeredAt := 2000 },
                          pendingRequests := [] })
      = none ∧
    mapGet "uptime"
        (getStatus 5000 { activeTunnel := some { ws := 1, wsReadyState := 1, port := 3000, registeredAt := 2000 },
                          pendingRequests := [] })
      = some (JsVal.num 3000) :=
  ⟨rfl, rfl⟩

/-- C8 amended: with a tunnel registered, getStatus returns connected =
isActive (the registered channel is open), port = the declared port, and
the elapsed milliseconds since the registration was installed under the
key "uptime"; a fresh registration at time regNow reports uptime
now - regNow. -/
theorem getStatus_spec (now : Nat) (st : TunnelManager) (t : Tunnel)
    (ht : st.activeTunnel = some t) :
    getStatus now st
      = [("connected", JsVal.bool (isActive st)), ("port", JsVal.num t.port),
         ("uptime", JsVal.num (now - t.registeredAt))] ∧
    (isActive st = true ↔ t.wsReadyState = 1) ∧
    (∀ (regNow ws : Nat) (rp : Option Nat) (st0 st1 : TunnelManager) (t1 : Tunnel),
      registerTunnel regNow st0 ws rp = Except.ok (st1, t1) →
      getStatus now st1
        = [("connected", JsVal.bool true), ("port", JsVal.num (jsOrNat rp 3000)),
           ("uptime", JsVal.num (now - regNow))]) := by
  refine ⟨by simp [getStatus, ht], by simp [isActive, ht], ?_⟩
  intro regNow ws rp st0 st1 t1 hreg
  cases h0 : st0.activeTunnel with
  | some t0 => simp [registerTunnel, h0] at hreg
  | none =>
      simp [registerTunnel, h0] at hreg
      obtain ⟨hst1, -⟩ := hreg
      simp [← hst1, getStatus, isActive]

/-- Witness for the amended C8 on a concrete registered state. -/
theorem getStatus_spec_witness :
    getStatus 5000 { activeTunnel := some { ws := 1, wsReadyState := 1, port := 3000, registeredAt := 2000 },
                     pendingRequests := [] }
      = [("connected", JsVal.bool true), ("port", JsVal.num 3000), ("uptime", JsVal.num 3000)] :=
  ((getStatus_spec 5000 _ _ rfl).1).trans (by decide)

/-- C9 counterexample: the url " http://example.com" does not begin with
http:// or https://, yet initConfig accepts it, because the url is
trimmed before validation; this refutes the rejection clause as stated. -/
theorem init_accepts_untrimmed_url :
    strStartsWith " http://example.com" "http://" = false ∧
    strStartsWith " http://example.com" "https://" = false ∧
    initConfig (fun _ => true) "T1" none " http://example.com"
      = Except.ok { domain := "http://example.com", createdAt := "T1", updatedAt := "T1" } := by
  refine ⟨by decide, by decide, ?_⟩
  rfl

/-- C9 amended: initConfig first trims the url and drops one trailing
slash; it succeeds whenever that normalized form begins with http:// or
https:// and parses as a URL, persisting the normalized domain with
updatedAt = now and with createdAt preserved from a nonempty existing
value (taken fresh when the file is absent or the value empty), and
reading the stored configuration back returns it unchanged; a url is
rejected when its normalized form does not begin with http:// or
https://. -/
theorem initConfig_spec (urlOk : String → Bool) (url now : String) (fileState : Option Config) :
    ((strStartsWith (normalizeDomain url) "http://"
        || strStartsWith (normalizeDomain url) "https://") = true →
      urlOk (normalizeDomain url) = true →
      ∃ c, initConfig urlOk now fileState url = Except.ok c ∧
        c.domain = normalizeDomain url ∧
        c.updatedAt = now ∧
        getConfig (some c) = some c ∧
        (fileState = none → c.createdAt = now) ∧
        (∀ c0, fileState = some c0 → c0.createdAt ≠ "" → c.createdAt = c0.createdAt)) ∧
    ((strStartsWith (normalizeDomain url) "http://"
        || strStartsWith (normalizeDomain url) "https://") = false →
      ∃ e, initConfig urlOk now fileState url = Except.error e) := by
  constructor
  · intro hok hurl
    by_cases hu : url = ""
    · rw [hu] at hok
      exact absurd hok (by decide)
    · have hd : normalizeDomain url ≠ "" := by
        intro hdd
        rw [hdd] at hok
        exact absurd hok (by decide)
      have hcond : (!(strStartsWith (normalizeDomain url) "http://")
          && !(strStartsWith (normalizeDomain url) "https://")) = false := by
        cases hx : strStartsWith (normalizeDomain url) "http://" <;>
          cases hy : strStartsWith (normalizeDomain url) "https://" <;>
            simp_all
      refine ⟨{ domain := normalizeDomain url,
                createdAt := match fileState with
                             | some c0 => if c0.createdAt = "" then now else c0.createdAt
                             | none => now,
                updatedAt := now }, ?_, rfl, rfl, ?_, ?_, ?_⟩
      · simp [initConfig, hu, hcond, hurl]
      · simp [getConfig, hd]
      · intro h
        rw [h]
      · intro c0 h0 hne
        rw [h0]
        simp [hne]
  · intro hok
    by_cases hu : url = ""
    · exact ⟨"Domain is required", by simp [initConfig, hu]⟩
    · have hcond : (!(strStartsWith (normalizeDomain url) "http://")
          && !(strStartsWith (normalizeDomain url) "https://")) = true := by
        cases hx : strStartsWith (normalizeDomain url) "http://" <;>
          cases hy : strStartsWith (normalizeDomain url) "https://" <;>
            simp_all
      exact ⟨"Domain must start with http:// or https://", by simp [initConfig, hu, hcond]⟩

/-- Witness for the amended C9: a second init on an already configured
store keeps createdAt and refreshes updatedAt. -/
theorem initConfig_spec_witness :
    ∃ c,
      initConfig (fun _ => true) "T2"
          (some { domain := "https://a.b", createdAt := "T1", updatedAt := "T0" }) "https://a.b/"
        = Except.ok c ∧
      c.domain = normalizeDomain "https://a.b/" ∧
      c.updatedAt = "T2" ∧
      getConfig (some c) = some c ∧
      ((some { domain := "https://a.b", createdAt := "T1", updatedAt := "T0" } : Option Config)
        = none → c.createdAt = "T2") ∧
      (∀ c0,
        (some { domain := "https://a.b", createdAt := "T1", updatedAt := "T0" } : Option Config)
          = some c0 → c0.createdAt ≠ "" → c.createdAt = c0.createdAt) :=
  (initConfig_spec (fun _ => true) "https://a.b/" "T2"
      (some { domain := "https://a.b", createdAt := "T1", updatedAt := "T0" })).1
    (by decide) rfl

/-- C10: a request frame carrying an inline body is written to the local
request and ended at once, and its pending entry is deleted even when
hasBody is true, so subsequent request-direction chunk and end frames
for that id find no pending entry and are silently dropped. -/
theorem inline_body_completes_request (st : ClientState) (requestId b d : String)
    (hb : b ≠ "") :
    clientDispatch st { type := "request", id := some requestId, hasBody := some true, body := some b }
      = (mapDel requestId (mapSet requestId { chunks := [] } st),
         [LAction.write (base64Decode b), LAction.endReq]) ∧
    mapGet requestId
        (clientDispatch st
          { type := "request", id := some requestId, hasBody := some true, body := some b }).1
      = none ∧
    clientDispatch
        (clientDispatch st
          { type := "request", id := some requestId, hasBody := some true, body := some b }).1
        { type := "chunk", id := some requestId, data := some d, direction := some "request" }
      = ((clientDispatch st
          { type := "request", id := some requestId, hasBody := some true, body := some b }).1, []) ∧
    clientDispatch
        (clientDispatch st
          { type := "request", id := some requestId, hasBody := some true, body := some b }).1
        { type := "end", id := some requestId, direction := some "request" }
      = ((clientDispatch st
          { type := "request", id := some requestId, hasBody := some true, body := some b }).1, []) := by
  have key : clientDispatch st
      { type := "request", id := some requestId, hasBody := some true, body := some b }
      = (mapDel requestId (mapSet requestId { chunks := [] } st),
         [LAction.write (base64Decode b), LAction.endReq]) := by
    simp [clientDispatch, forwardToLocal, jsTruthy, hb]
  refine ⟨key, ?_, ?_, ?_⟩
  · rw [key]
    exact mapGet_mapDel requestId (mapSet requestId { chunks := [] } st)
  · rw [key]
    simp [clientDispatch, handleRequestChunk, mapGet_mapDel]
  · rw [key]
    simp [clientDispatch, handleRequestEnd, mapGet_mapDel]

/-- Witness for C10 on a concrete inline-body request frame. -/
theorem inline_body_completes_request_witness :
    clientDispatch [] { type := "request", id := some "r", hasBody := some true, body := some "aGk=" }
      = ([], [LAction.write [104, 105], LAction.endReq]) :=
  ((inline_body_completes_request [] "r" "aGk=" "eA==" (by decide)).1).trans (by decide)
